import Mathlib

/-!
Verification of the Darts-MVP backend (`backend/app.py`): admission control on
uploads, the SQLite job store, the per-job status document store, the pipeline
orchestrator, and the HTTP read path.  Python functions are shallowly embedded
as Lean functions; external effects (uploaded byte stream, external process
exit codes, files produced by external processes, clock readings) are explicit
parameters; JSON values are modelled by an inductive `JsonV` whose numbers are
rationals.
-/

namespace DartsMVP

/-- JSON values as produced by `json.loads` / consumed by `json.dumps`.
Numbers are modelled as rationals (Python ints and floats collapsed). -/
inductive JsonV where
  | null : JsonV
  | bool : Bool → JsonV
  | num : ℚ → JsonV
  | str : String → JsonV
  | arr : List JsonV → JsonV
  | obj : List (String × JsonV) → JsonV
deriving Repr

/-- Python `dict.get(key)` on a JSON object: `null` (Python `None`) when the
key is absent; raises `AttributeError` when the receiver is not a dict. -/
def pyGet (v : JsonV) (key : String) : Except String JsonV :=
  match v with
  | .obj fields =>
      match fields.lookup key with
      | some x => .ok x
      | none => .ok .null
  | _ => .error "AttributeError"

/-- Python truthiness of a JSON value (`None`, `False`, `0`, `""`, `[]`, `{}`
are falsy). -/
def jsonFalsy : JsonV → Bool
  | .null => true
  | .bool b => !b
  | .num q => q = 0
  | .str s => s = ""
  | .arr xs => xs.isEmpty
  | .obj fs => fs.isEmpty

/-- `x or {}` in Python: replace a falsy value by the empty dict. -/
def orEmptyObj (v : JsonV) : JsonV :=
  if jsonFalsy v then .obj [] else v

/-- Lookup in a JSON object (total, `none` when not an object or key absent);
used to state properties about the documents the code builds. -/
def jsonGet (v : JsonV) (key : String) : Option JsonV :=
  match v with
  | .obj fields => fields.lookup key
  | _ => none

/-- Embed an optional string as a JSON value (`None` → `null`). -/
def optStr : Option String → JsonV
  | some s => .str s
  | none => .null

/-- Embed an optional number as a JSON value (`None` → `null`). -/
def optNum : Option ℚ → JsonV
  | some q => .num q
  | none => .null

/-- Embed an optional JSON document (`None` → `null`). -/
def optJson : Option JsonV → JsonV
  | some v => v
  | none => .null

/-! ## Admission controller: `save_upload_with_limit`

The Python function reads the upload in 1 MiB chunks, adds each chunk's length
to a running total, raises HTTP 413 as soon as the total exceeds `max_bytes`
(before writing the offending chunk), and unlinks the partial file on any
exception.  The inbound stream is modelled as the list of chunk sizes returned
by successive `read` calls; a `0` entry models an empty read (end of stream,
`break`). -/

/-- `MAX_UPLOAD_BYTES = 400 * 1024 * 1024`. -/
def MAX_UPLOAD_BYTES : Nat := 400 * 1024 * 1024

/-- `MAX_VIDEO_SECONDS = 70.0`. -/
def MAX_VIDEO_SECONDS : ℚ := 70

/-- Result of a run of `save_upload_with_limit`:
`result` is `.ok total` on success and `.error detail` for the HTTP 413;
`onDisk` is the byte count of the destination file afterwards (`none`:
the file was unlinked); `diskHistory` records the file's size after the
initial `open("wb")` and after each `f.write`; `chunksConsumed` counts the
`read` calls that returned data before the function stopped. -/
structure SaveResult where
  result : Except String Nat
  onDisk : Option Nat
  diskHistory : List Nat
  chunksConsumed : Nat
deriving Repr

/-- The HTTP 413 detail string for ceiling `max_bytes`:
`f"File too large. Max is {max_bytes // (1024 * 1024)}MB."`. -/
def tooLargeMsg (maxBytes : Nat) : String :=
  "File too large. Max is " ++ toString (maxBytes / (1024 * 1024)) ++ "MB."

/-- One loop iteration state: remaining stream, running `written` total.
Returns the loop's outcome, the sizes on disk after each write, and the
number of chunks consumed. -/
def saveLoop (maxBytes : Nat) : List Nat → Nat → Except String Nat × List Nat × Nat
  | [], written => (.ok written, [], 0)
  | c :: rest, written =>
      if c = 0 then
        (.ok written, [], 0)
      else
        let written' := written + c
        if maxBytes < written' then
          (.error (tooLargeMsg maxBytes), [], 1)
        else
          let r := saveLoop maxBytes rest written'
          (r.1, written' :: r.2.1, r.2.2 + 1)

/-- `save_upload_with_limit(upload, dest, max_bytes)`: the `with open` creates
an empty file (history starts at `0`); on the 413 the partial file is
unlinked. -/
def save_upload_with_limit (chunks : List Nat) (maxBytes : Nat) : SaveResult :=
  let r := saveLoop maxBytes chunks 0
  { result := r.1
  , onDisk := match r.1 with
      | .ok w => some w
      | .error _ => none
  , diskHistory := 0 :: r.2.1
  , chunksConsumed := r.2.2 }

/-! ## Duration probing: `_parse_duration_from_ffmpeg_stderr`

The Python function returns `None` on empty input, otherwise searches the text
for the first match of `Duration:\s*(\d+):(\d+):(\d+(?:\.\d+)?)` and returns
`hh*3600 + mm*60 + ss`.  The regex is embedded as a character-level matcher:
`re.search` returns the leftmost match, and since the pattern starts with the
literal `Duration:`, that is the leftmost position where the full pattern
matches. -/

/-- Python `\s` on ASCII text. -/
def isPySpace (c : Char) : Bool :=
  c = ' ' || c = '\t' || c = '\n' || c = '\r' || c = '\x0c' || c = '\x0b'

/-- Greedily consume decimal digits, returning them and the rest. -/
def takeDigits : List Char → List Char × List Char
  | [] => ([], [])
  | c :: rest =>
      if c.isDigit then
        let (ds, rem) := takeDigits rest
        (c :: ds, rem)
      else ([], c :: rest)

/-- Greedily consume `\s*`. -/
def dropSpaces : List Char → List Char
  | [] => []
  | c :: rest => if isPySpace c then dropSpaces rest else c :: rest

/-- Numeric value of a digit string (`int(...)` on `\d+`). -/
def digitsToNat (ds : List Char) : Nat :=
  ds.foldl (fun acc c => acc * 10 + (c.toNat - '0'.toNat)) 0

/-- `float(...)` on `\d+(\.\d+)?`: integer part plus optional fraction. -/
def digitsToRat (intPart : List Char) (fracPart : List Char) : ℚ :=
  (digitsToNat intPart : ℚ) + (digitsToNat fracPart : ℚ) / ((10 : ℚ) ^ fracPart.length)

/-- Try to match `(\d+):(\d+):(\d+(?:\.\d+)?)` at the head of the input,
returning the three captured groups' values. -/
def matchHMS (l : List Char) : Option (Nat × Nat × ℚ) :=
  let (hds, r1) := takeDigits l
  if hds.isEmpty then none else
  match r1 with
  | ':' :: r2 =>
      let (mds, r3) := takeDigits r2
      if mds.isEmpty then none else
      match r3 with
      | ':' :: r4 =>
          let (sds, r5) := takeDigits r4
          if sds.isEmpty then none else
          match r5 with
          | '.' :: r6 =>
              let (fds, _) := takeDigits r6
              if fds.isEmpty then
                some (digitsToNat hds, digitsToNat mds, digitsToRat sds [])
              else
                some (digitsToNat hds, digitsToNat mds, digitsToRat sds fds)
          | _ => some (digitsToNat hds, digitsToNat mds, digitsToRat sds [])
      | _ => none
  | _ => none

/-- Try to match the full pattern `Duration:\s*(\d+):(\d+):(\d+(?:\.\d+)?)`
at the head of the input. -/
def matchDurationAt (l : List Char) : Option (Nat × Nat × ℚ) :=
  match l with
  | 'D' :: 'u' :: 'r' :: 'a' :: 't' :: 'i' :: 'o' :: 'n' :: ':' :: rest =>
      matchHMS (dropSpaces rest)
  | _ => none

/-- `re.search`: scan left to right for the first position where the pattern
matches. -/
def findDuration : List Char → Option (Nat × Nat × ℚ)
  | [] => none
  | c :: rest =>
      match matchDurationAt (c :: rest) with
      | some r => some r
      | none => findDuration rest

/-- `_parse_duration_from_ffmpeg_stderr(stderr)`. -/
def _parse_duration_from_ffmpeg_stderr (stderr : String) : Option ℚ :=
  if stderr = "" then none
  else
    match findDuration stderr.toList with
    | some (hh, mm, ss) => some ((hh : ℚ) * 3600 + (mm : ℚ) * 60 + ss)
    | none => none

/-! ## Job store (SQLite `jobs` table)

One row per job; the table is a list of rows.  Nullable columns are `Option`;
`status` is `TEXT NOT NULL`.  Timestamps are rationals. -/

/-- A row of the `jobs` table (schema from `db_init`). -/
structure JobRow where
  job_id : String
  user_id : String
  created_at_unix : ℚ
  original_filename : Option String
  upload_ext : Option String
  upload_path : Option String
  status : String
  progress : Option ℚ
  stage : Option String
  error_message : Option String
  overlay_url : Option String
  analysis_url : Option String
  practice_plan_url : Option String
  practice_plan_txt_url : Option String
  lesson_plan_url : Option String
  throws_detected : Option Int
deriving Repr, DecidableEq

/-- The row inserted by `db_insert_job`. -/
def db_insert_row (job_id user_id : String) (created_at_unix : ℚ)
    (original_filename upload_ext upload_path : String) : JobRow :=
  { job_id := job_id
  , user_id := user_id
  , created_at_unix := created_at_unix
  , original_filename := some original_filename
  , upload_ext := some upload_ext
  , upload_path := some upload_path
  , status := "queued"
  , progress := some 0
  , stage := some "starting"
  , error_message := none
  , overlay_url := none
  , analysis_url := none
  , practice_plan_url := none
  , practice_plan_txt_url := none
  , lesson_plan_url := none
  , throws_detected := none }

/-- Effect of `db_update_job_status`'s `UPDATE` on one row matching the
`WHERE job_id = ?` clause:
`SET status = COALESCE(?, status), progress = COALESCE(?, progress),
stage = COALESCE(?, stage)`. -/
def rowUpdateStatus (r : JobRow) (status : Option String) (progress : Option ℚ)
    (stage : Option String) : JobRow :=
  { r with
    status := status.getD r.status
  , progress := match progress with
      | some p => some p
      | none => r.progress
  , stage := match stage with
      | some s => some s
      | none => r.stage }

/-- `db_update_job_status(job_id, status, progress=None, stage=None)` applied
to the whole table: only rows whose `job_id` matches are updated. -/
def db_update_job_status (db : List JobRow) (job_id : String)
    (status : Option String) (progress : Option ℚ) (stage : Option String) :
    List JobRow :=
  db.map fun r => if r.job_id = job_id then rowUpdateStatus r status progress stage else r

/-- Effect of `db_mark_job_failed`'s `UPDATE` on one matching row:
`SET status = 'failed', progress = 1.0, stage = 'failed',
error_message = ?`. -/
def rowMarkFailed (r : JobRow) (error_message : String) : JobRow :=
  { r with
    status := "failed"
  , progress := some 1
  , stage := some "failed"
  , error_message := some error_message }

/-- `db_mark_job_failed(job_id, error_message)` applied to the whole table. -/
def db_mark_job_failed (db : List JobRow) (job_id : String)
    (error_message : String) : List JobRow :=
  db.map fun r => if r.job_id = job_id then rowMarkFailed r error_message else r

/-- Effect of `db_mark_job_done`'s `UPDATE` on one matching row. -/
def rowMarkDone (r : JobRow) (overlay_url analysis_url practice_plan_url
    practice_plan_txt_url lesson_plan_url : Option String)
    (throws_detected : Option Int) : JobRow :=
  { r with
    status := "done"
  , progress := some 1
  , stage := some "done"
  , error_message := none
  , overlay_url := overlay_url
  , analysis_url := analysis_url
  , practice_plan_url := practice_plan_url
  , practice_plan_txt_url := practice_plan_txt_url
  , lesson_plan_url := lesson_plan_url
  , throws_detected := throws_detected }

/-! ## Status document store -/

/-- State of the job's result directory as seen by the status read path:
whether `results/<job_id>/` exists, and the parsed content of
`results/<job_id>/status.json` when that file exists (`write_status` only
ever stores `json.dumps` of a document, so a present file parses). -/
structure JobDirState where
  dirExists : Bool
  statusFile : Option JsonV
deriving Repr

/-- The synthetic placeholder `read_status` returns when the job directory
exists but `status.json` does not. -/
def queuedPlaceholder (job_id : String) : JsonV :=
  .obj [ ("job_id", .str job_id)
       , ("status", .str "queued")
       , ("progress", .num 0)
       , ("stage", .str "starting")
       , ("started_at_unix", .null)
       , ("finished_at_unix", .null)
       , ("error", .null)
       , ("result", .null) ]

/-- The marker `read_status` returns when neither the status file nor the job
directory exists. -/
def notFoundMarker (job_id : String) : JsonV :=
  .obj [ ("job_id", .str job_id), ("status", .str "not_found") ]

/-- `read_status(job_id)`; also the body of `GET /jobs/{job_id}`. -/
def read_status (job_id : String) (d : JobDirState) : JsonV :=
  match d.statusFile with
  | some doc => doc
  | none =>
      if d.dirExists then queuedPlaceholder job_id
      else notFoundMarker job_id

/-! ## Artifact URL helpers -/

/-- `_pick_overlay_url(job_id, view)`: prefer the web overlay variant if that
file exists, else the full overlay, else `None`.  File existence is passed in
explicitly. -/
def _pick_overlay_url (job_id view : String) (webExists fullExists : Bool) :
    Option String :=
  if webExists then
    some ("/results/" ++ job_id ++ "/" ++ view ++ "/overlay_release_web.mp4")
  else if fullExists then
    some ("/results/" ++ job_id ++ "/" ++ view ++ "/overlay_release.mp4")
  else
    none

/-- `_infer_txt_url(job_id)`: the plain-text summary URL when the file
exists. -/
def _infer_txt_url (job_id : String) (txtExists : Bool) : Option String :=
  if txtExists then some ("/results/" ++ job_id ++ "/combined/practice_plan.txt")
  else none

/-! ## Pipeline orchestrator: `start_background_job`

The orchestrator drives one job through per-view analysis, view combination
and report building, updating the job row and the status document.  External
behaviour is passed in as a `PipelineEnv`: subprocess exit codes and stderr,
which artifact files the external stages produced, the parsed contents of the
documents the success path reads back, and the two clock readings the code
takes. -/

/-- The external world one orchestrator run interacts with. -/
structure PipelineEnv where
  /-- `run_engine.py` exit code for the side view (when run). -/
  sideExit : Int
  sideStderr : String
  /-- `run_engine.py` exit code for the front view (when run). -/
  frontExit : Int
  frontStderr : String
  /-- `combine_views.py` exit code. -/
  combineExit : Int
  combineStderr : String
  /-- `build_combined_outputs.py` exit code. -/
  buildExit : Int
  buildStderr : String
  /-- Which overlay files the per-view stages left on disk. -/
  sideOverlayWeb : Bool
  sideOverlayFull : Bool
  frontOverlayWeb : Bool
  frontOverlayFull : Bool
  /-- `combined/practice_plan.txt` exists. -/
  txtExists : Bool
  /-- Parsed `combined/practice_plan.json` (`none`: missing or unparseable). -/
  practicePlanDoc : Option JsonV
  /-- Parsed `combined/lesson_plan.json` (`none`: missing or unparseable). -/
  lessonPlanDoc : Option JsonV
  /-- Parsed `combined/analysis.json` (`none`: missing or unparseable). -/
  combinedDoc : Option JsonV
  /-- `time.time()` at worker start. -/
  startTime : ℚ
  /-- `time.time()` at the terminal write. -/
  endTime : ℚ
deriving Repr

/-- Everything one run of `start_background_job` leaves behind:
every `progress` value written to either store in order, every `stage` value
written to the job store in order, the final job row, the final content of
`status.json`, and whether `combined/analysis.json` is on disk afterwards. -/
structure RunOutcome where
  progressWrites : List ℚ
  stageWrites : List String
  row : JobRow
  statusDoc : JsonV
  combinedAnalysisOnDisk : Bool
deriving Repr

/-- Last `n` characters of a string (Python `s[-n:]`). -/
def strTail (n : Nat) (s : String) : String :=
  String.mk (s.toList.drop (s.toList.length - n))

/-- `isinstance(x, int)` on a JSON value (Python `bool` is a subclass of
`int`, and `True`/`False` store as `1`/`0`). -/
def jsonToInt : JsonV → Option Int
  | .num q => if q.den = 1 then some q.num else none
  | .bool b => some (if b then 1 else 0)
  | _ => none

/-- `_pick_overlay_url(job_id, "side") if side_path else None`
(step 4 of the orchestrator). -/
def overlaySideUrl (job_id : String) (hasSide : Bool) (env : PipelineEnv) :
    Option String :=
  if hasSide then _pick_overlay_url job_id "side" env.sideOverlayWeb env.sideOverlayFull
  else none

/-- `_pick_overlay_url(job_id, "front") if front_path else None`
(step 4 of the orchestrator). -/
def overlayFrontUrl (job_id : String) (hasFront : Bool) (env : PipelineEnv) :
    Option String :=
  if hasFront then _pick_overlay_url job_id "front" env.frontOverlayWeb env.frontOverlayFull
  else none

/-- The status document written at worker start (status `running`,
progress `0.01`, stage `starting_worker`). -/
def runningDoc (job_id : String) (startTime : ℚ) : JsonV :=
  .obj [ ("job_id", .str job_id)
       , ("status", .str "running")
       , ("progress", .num (1/100))
       , ("stage", .str "starting_worker")
       , ("started_at_unix", .num startTime)
       , ("finished_at_unix", .null)
       , ("error", .null)
       , ("result", .null) ]

/-- The `except` branch of `start_background_job`: `db_mark_job_failed`
first, then `write_status` of the failed document (progress `1.0`,
stage `failed`, `started_at_unix` read back from the current status
document). -/
def failOutcome (job_id : String) (endTime : ℚ) (row : JobRow) (curDoc : JsonV)
    (progressSoFar : List ℚ) (stagesSoFar : List String)
    (combinedOnDisk : Bool) (err_msg : String) : RunOutcome :=
  { progressWrites := progressSoFar ++ [1, 1]
  , stageWrites := stagesSoFar ++ ["failed"]
  , row := rowMarkFailed row err_msg
  , statusDoc := .obj
      [ ("job_id", .str job_id)
      , ("status", .str "failed")
      , ("progress", .num 1)
      , ("stage", .str "failed")
      , ("started_at_unix", (jsonGet curDoc "started_at_unix").getD .null)
      , ("finished_at_unix", .num endTime)
      , ("error", .obj [("message", .str err_msg)])
      , ("result", .null) ]
  , combinedAnalysisOnDisk := combinedOnDisk }

/-- `start_background_job(job_id, side_path, front_path, model, no_ai)`.
`hasSide`/`hasFront` model `side_path`/`front_path` being non-`None`;
`row0` is the job's row at entry (as inserted by the `/analyze` handler). -/
def start_background_job (job_id : String) (hasSide hasFront : Bool)
    (env : PipelineEnv) (row0 : JobRow) : RunOutcome :=
  let doc0 := runningDoc job_id env.startTime
  let row1 := rowUpdateStatus row0 (some "running") (some (1/100)) (some "starting_worker")
  let prog0 : List ℚ := [1/100, 1/100]
  let stages0 : List String := ["starting_worker"]
  -- 1) run pipelines per view
  let prog1 := if hasSide then prog0 ++ [1/10] else prog0
  let stages1 := if hasSide then stages0 ++ ["running_side"] else stages0
  let row2 := if hasSide then
      rowUpdateStatus row1 (some "running") (some (1/10)) (some "running_side")
    else row1
  if hasSide ∧ env.sideExit ≠ 0 then
    failOutcome job_id env.endTime row2 doc0 prog1 stages1 false
      ("RuntimeError: side pipeline failed (exit " ++ toString env.sideExit ++
       "). STDERR tail: " ++ strTail 1200 env.sideStderr)
  else
  let prog2 := if hasFront then prog1 ++ [9/20] else prog1
  let stages2 := if hasFront then stages1 ++ ["running_front"] else stages1
  let row3 := if hasFront then
      rowUpdateStatus row2 (some "running") (some (9/20)) (some "running_front")
    else row2
  if hasFront ∧ env.frontExit ≠ 0 then
    failOutcome job_id env.endTime row3 doc0 prog2 stages2 false
      ("RuntimeError: front pipeline failed (exit " ++ toString env.frontExit ++
       "). STDERR tail: " ++ strTail 1200 env.frontStderr)
  else
  -- 2) combine analyses -> results/<job_id>/combined/analysis.json
  let prog3 := prog2 ++ [3/4]
  let stages3 := stages2 ++ ["combining_views"]
  let row4 := rowUpdateStatus row3 (some "running") (some (3/4)) (some "combining_views")
  if env.combineExit ≠ 0 then
    failOutcome job_id env.endTime row4 doc0 prog3 stages3 false
      ("RuntimeError: combine_views failed. STDERR: " ++ strTail 1200 env.combineStderr)
  else
  -- combiner exited zero: the combined analysis document is on disk
  -- 3) build combined lesson + practice plan + PDF in combined/
  let prog4 := prog3 ++ [22/25]
  let stages4 := stages3 ++ ["building_combined_outputs"]
  let row5 := rowUpdateStatus row4 (some "running") (some (22/25)) (some "building_combined_outputs")
  if env.buildExit ≠ 0 then
    failOutcome job_id env.endTime row5 doc0 prog4 stages4 true
      ("RuntimeError: build_combined_outputs failed. STDERR: " ++ strTail 1200 env.buildStderr)
  else
  -- 4) collect overlays (both views) + legacy default: prefer side then front
  let overlay_side_url := overlaySideUrl job_id hasSide env
  let overlay_front_url := overlayFrontUrl job_id hasFront env
  let overlay_url := overlay_side_url <|> overlay_front_url
  -- 5) read combined outputs back
  let practice_plan_obj := env.practicePlanDoc
  let lesson_plan_obj := env.lessonPlanDoc
  let analysis_url := "/results/" ++ job_id ++ "/combined/analysis.json"
  let pdf_url := "/results/" ++ job_id ++ "/combined/practice_plan.pdf"
  let lesson_url := "/results/" ++ job_id ++ "/combined/lesson_plan.json"
  let txt_url := _infer_txt_url job_id env.txtExists
  let combined_obj := orEmptyObj (optJson env.combinedDoc)
  match pyGet combined_obj "summary" with
  | .error _ =>
      -- the Python runtime raises AttributeError on `.get` of a non-dict
      failOutcome job_id env.endTime row5 doc0 prog4 stages4 true
        "AttributeError: object has no attribute get"
  | .ok summaryRaw =>
  let summary := orEmptyObj summaryRaw
  match pyGet summary "throws_detected" with
  | .error _ =>
      failOutcome job_id env.endTime row5 doc0 prog4 stages4 true
        "AttributeError: object has no attribute get"
  | .ok throws_detected =>
  -- 6) final status payload + terminal writes
  let result : JsonV := .obj
    [ ("overlay_url", optStr overlay_url)
    , ("overlay_side_url", optStr overlay_side_url)
    , ("overlay_front_url", optStr overlay_front_url)
    , ("analysis_url", .str analysis_url)
    , ("lesson_plan_url", .str lesson_url)
    , ("practice_plan_pdf_url", .str pdf_url)
    , ("practice_plan_txt_url", optStr txt_url)
    , ("practice_plan", optJson practice_plan_obj)
    , ("lesson_plan", optJson lesson_plan_obj)
    , ("analysis_summary", summary)
    , ("views", .obj [("side", .bool hasSide), ("front", .bool hasFront)]) ]
  { progressWrites := prog4 ++ [1, 1]
  , stageWrites := stages4 ++ ["done"]
  , row := rowMarkDone row5 overlay_url (some analysis_url) (some pdf_url)
      txt_url (some lesson_url) (jsonToInt throws_detected)
  , statusDoc := .obj
      [ ("job_id", .str job_id)
      , ("status", .str "done")
      , ("progress", .num 1)
      , ("stage", .str "done")
      , ("started_at_unix", (jsonGet doc0 "started_at_unix").getD .null)
      , ("finished_at_unix", .num env.endTime)
      , ("error", .null)
      , ("result", result) ]
  , combinedAnalysisOnDisk := true }

/-! ## HTTP façade: admission part of `POST /analyze`

`analyze` validates that at least one view was uploaded, then runs
`_save_and_validate` on the side view and then on the front view; only if
both admissions pass does it create the job directory, write the queued
status document, insert the job row and launch the worker.  An uploaded view
is modelled by its stream of chunk sizes, its filename suffix, and the
outcome of the duration probe on the saved file. -/

/-- One supplied view's upload as the admission controller sees it. -/
structure ViewUpload where
  /-- Chunk sizes successive `read(1 MiB)` calls return (`0` = end). -/
  chunks : List Nat
  /-- `Path(filename).suffix.lower()` (empty when the name has none). -/
  suffix : String
  /-- Duration probe outcome: `some d` when `get_video_duration_seconds`
  returned `d`, `none` when it raised. -/
  duration : Option ℚ
deriving Repr

/-- `_save_and_validate(upl, label)` reduced to its admission decision:
`.ok ()` when the upload is admitted (its file persists), `.error code`
when an `HTTPException(code)` aborts the request (its file was unlinked). -/
def viewAdmission (v : ViewUpload) : Except Nat Unit :=
  match (save_upload_with_limit v.chunks MAX_UPLOAD_BYTES).result with
  | .error _ => .error 413
  | .ok _ =>
      match v.duration with
      | none => .error 400
      | some dur =>
          if MAX_VIDEO_SECONDS + 1/20 < dur then .error 400 else .ok ()

/-- The upload file name `uploads/<job_id>_<label><suffix>` (an empty suffix
falls back to `.mov`). -/
def uploadName (job_id label suffix : String) : String :=
  job_id ++ "_" ++ label ++ (if suffix = "" then ".mov" else suffix)

/-- What one request to `POST /analyze` leaves behind. -/
structure AnalyzeOutcome where
  /-- `.ok job_id` for the 200 response, `.error code` for an
  `HTTPException(code)`. -/
  response : Except Nat String
  /-- Names of this request's upload files still on disk afterwards. -/
  uploadsOnDisk : List String
  /-- A `jobs` row was inserted. -/
  jobInserted : Bool
  /-- The queued status document was written. -/
  statusDocWritten : Bool
  /-- `results/<job_id>/` was created. -/
  jobDirCreated : Bool
deriving Repr

/-- An aborted request: nothing was created beyond the surviving uploads. -/
def rejectedOutcome (code : Nat) (uploads : List String) : AnalyzeOutcome :=
  { response := .error code
  , uploadsOnDisk := uploads
  , jobInserted := false
  , statusDocWritten := false
  , jobDirCreated := false }

/-- Admission phase of `analyze(side_video, front_video, ...)`: side view
first, then front view; a failure propagates out of the handler at once,
deleting only the failing view's file. -/
def analyze (job_id : String) (side front : Option ViewUpload) : AnalyzeOutcome :=
  if side.isNone ∧ front.isNone then rejectedOutcome 400 []
  else
    let sideFiles := match side with
      | some sv => [uploadName job_id "side" sv.suffix]
      | none => []
    let sideRes : Except Nat Unit := match side with
      | some sv => viewAdmission sv
      | none => .ok ()
    match sideRes with
    | .error code => rejectedOutcome code []
    | .ok _ =>
        let frontRes : Except Nat Unit := match front with
          | some fv => viewAdmission fv
          | none => .ok ()
        match frontRes with
        | .error code => rejectedOutcome code sideFiles
        | .ok _ =>
            { response := .ok job_id
            , uploadsOnDisk := sideFiles ++ (match front with
                | some fv => [uploadName job_id "front" fv.suffix]
                | none => [])
            , jobInserted := true
            , statusDocWritten := true
            , jobDirCreated := true }

/-! # Verification -/

/-! ## Admission controller: the byte ceiling -/

lemma saveLoop_cons (m c : Nat) (rest : List Nat) (w : Nat) :
    saveLoop m (c :: rest) w =
      if c = 0 then (.ok w, [], 0)
      else if m < w + c then (.error (tooLargeMsg m), [], 1)
      else ((saveLoop m rest (w + c)).1, (w + c) :: (saveLoop m rest (w + c)).2.1,
            (saveLoop m rest (w + c)).2.2 + 1) := by
  rfl

/-- Total number of bytes the loop would read off the stream: the sum of the
chunk sizes up to (excluding) the first empty read. -/
def streamTotal : List Nat → Nat
  | [] => 0
  | c :: rest => if c = 0 then 0 else c + streamTotal rest

lemma saveLoop_hist_le (m : Nat) :
    ∀ (chunks : List Nat) (w : Nat), ∀ h ∈ (saveLoop m chunks w).2.1, h ≤ m := by
  intro chunks
  induction chunks with
  | nil => intro w h hh; simp [saveLoop] at hh
  | cons c rest ih =>
      intro w h hh
      rw [saveLoop_cons] at hh
      by_cases hc : c = 0
      · rw [if_pos hc] at hh; simp at hh
      · rw [if_neg hc] at hh
        by_cases hlt : m < w + c
        · rw [if_pos hlt] at hh; simp at hh
        · rw [if_neg hlt] at hh
          simp only [List.mem_cons] at hh
          rcases hh with h1 | h2
          · omega
          · exact ih (w + c) h h2

lemma saveLoop_ok (m : Nat) :
    ∀ (chunks : List Nat) (w : Nat),
      w + streamTotal chunks ≤ m →
      (saveLoop m chunks w).1 = .ok (w + streamTotal chunks) := by
  intro chunks
  induction chunks with
  | nil => intro w _; simp [saveLoop, streamTotal]
  | cons c rest ih =>
      intro w hle
      rw [saveLoop_cons]
      by_cases hc : c = 0
      · rw [streamTotal, if_pos hc]
        rw [if_pos hc]
        simp
      · rw [streamTotal, if_neg hc] at hle ⊢
        have hnl : ¬ m < w + c := by omega
        rw [if_neg hc, if_neg hnl]
        have hrec := ih (w + c) (by omega)
        simp only [hrec]
        congr 1
        omega

lemma saveLoop_error (m : Nat) :
    ∀ (chunks : List Nat) (w : Nat),
      w ≤ m → m < w + streamTotal chunks →
      (saveLoop m chunks w).1 = .error (tooLargeMsg m) ∧
      1 ≤ (saveLoop m chunks w).2.2 ∧
      (saveLoop m chunks w).2.2 ≤ chunks.length ∧
      m < w + (chunks.take (saveLoop m chunks w).2.2).sum ∧
      w + (chunks.take ((saveLoop m chunks w).2.2 - 1)).sum ≤ m := by
  intro chunks
  induction chunks with
  | nil => intro w hw hlt; simp [streamTotal] at hlt; omega
  | cons c rest ih =>
      intro w hw hlt
      by_cases hc : c = 0
      · rw [streamTotal, if_pos hc] at hlt
        omega
      · rw [streamTotal, if_neg hc] at hlt
        by_cases hbig : m < w + c
        · have heq : saveLoop m (c :: rest) w = (.error (tooLargeMsg m), [], 1) := by
            rw [saveLoop_cons, if_neg hc, if_pos hbig]
          rw [heq]
          refine ⟨rfl, le_refl 1, by simp, ?_, ?_⟩
          · simp only [List.take_succ_cons, List.take_zero, List.sum_cons, List.sum_nil]
            omega
          · simpa using hw
        · have hrec := ih (w + c) (by omega) (by omega)
          have heq : saveLoop m (c :: rest) w =
              ((saveLoop m rest (w + c)).1, (w + c) :: (saveLoop m rest (w + c)).2.1,
               (saveLoop m rest (w + c)).2.2 + 1) := by
            rw [saveLoop_cons, if_neg hc, if_neg hbig]
          rw [heq]
          simp only [Prod.fst, Prod.snd]
          obtain ⟨h1, h2, h3, h4, h5⟩ := hrec
          obtain ⟨k, hk⟩ : ∃ k, (saveLoop m rest (w + c)).2.2 = k + 1 :=
            ⟨(saveLoop m rest (w + c)).2.2 - 1, by omega⟩
          refine ⟨h1, by omega, by simp only [List.length_cons]; omega, ?_, ?_⟩
          · rw [hk]
            rw [hk] at h4
            simp only [List.take_succ_cons, List.sum_cons]
            omega
          · have hsimp : (saveLoop m rest (w + c)).2.2 + 1 - 1 = k + 1 := by omega
            rw [hsimp]
            rw [hk] at h5
            simp only [Nat.add_sub_cancel] at h5
            simp only [List.take_succ_cons, List.sum_cons]
            omega

/-- C2: `save_upload_with_limit` never lets the destination file exceed the
400 MiB ceiling: every intermediate size on disk is at most the ceiling; when
the running total exceeds the ceiling the function raises the 413 at the
first violating chunk (having consumed only the stream up to that chunk, not
the rest) and the partial file is unlinked, leaving no file on disk; on
success it returns the full byte count of the stream and the file persists at
that size. -/
theorem claim_C2_save_upload_ceiling (chunks : List Nat) :
    (∀ h ∈ (save_upload_with_limit chunks MAX_UPLOAD_BYTES).diskHistory,
        h ≤ MAX_UPLOAD_BYTES) ∧
    (∀ e, (save_upload_with_limit chunks MAX_UPLOAD_BYTES).result = .error e →
        (save_upload_with_limit chunks MAX_UPLOAD_BYTES).onDisk = none ∧
        e = "File too large. Max is 400MB." ∧
        1 ≤ (save_upload_with_limit chunks MAX_UPLOAD_BYTES).chunksConsumed ∧
        (save_upload_with_limit chunks MAX_UPLOAD_BYTES).chunksConsumed ≤ chunks.length ∧
        MAX_UPLOAD_BYTES <
          (chunks.take (save_upload_with_limit chunks MAX_UPLOAD_BYTES).chunksConsumed).sum ∧
        (chunks.take
          ((save_upload_with_limit chunks MAX_UPLOAD_BYTES).chunksConsumed - 1)).sum ≤
          MAX_UPLOAD_BYTES) ∧
    (∀ w, (save_upload_with_limit chunks MAX_UPLOAD_BYTES).result = .ok w →
        w = streamTotal chunks ∧
        (save_upload_with_limit chunks MAX_UPLOAD_BYTES).onDisk = some w) := by
  refine ⟨?_, ?_, ?_⟩
  · intro h hh
    simp only [save_upload_with_limit, List.mem_cons] at hh
    rcases hh with h0 | hmem
    · omega
    · exact saveLoop_hist_le MAX_UPLOAD_BYTES chunks 0 h hmem
  · intro e he
    by_cases hlt : MAX_UPLOAD_BYTES < streamTotal chunks
    · have herr := saveLoop_error MAX_UPLOAD_BYTES chunks 0 (Nat.zero_le _) (by omega)
      refine ⟨?_, ?_, ?_, ?_, ?_, ?_⟩
      · simp only [save_upload_with_limit] at he ⊢
        rw [herr.1]
      · simp only [save_upload_with_limit] at he
        rw [herr.1] at he
        have : e = tooLargeMsg MAX_UPLOAD_BYTES := by
          exact (Except.error.injEq _ _).mp he.symm
        rw [this]
        rfl
      · have h := herr.2.1
        simp only [save_upload_with_limit]
        omega
      · have h := herr.2.2.1
        simp only [save_upload_with_limit]
        omega
      · have h := herr.2.2.2.1
        simp only [save_upload_with_limit]
        omega
      · have h := herr.2.2.2.2
        simp only [save_upload_with_limit]
        omega
    · exfalso
      have hok := saveLoop_ok MAX_UPLOAD_BYTES chunks 0 (by omega)
      simp only [save_upload_with_limit] at he
      rw [hok] at he
      exact Except.noConfusion he
  · intro w hw
    by_cases hlt : MAX_UPLOAD_BYTES < streamTotal chunks
    · exfalso
      have herr := saveLoop_error MAX_UPLOAD_BYTES chunks 0 (Nat.zero_le _) (by omega)
      simp only [save_upload_with_limit] at hw
      rw [herr.1] at hw
      exact Except.noConfusion hw
    · have hok := saveLoop_ok MAX_UPLOAD_BYTES chunks 0 (by omega)
      simp only [save_upload_with_limit] at hw ⊢
      rw [hok] at hw ⊢
      have hwe : w = streamTotal chunks := by
        have := (Except.ok.injEq _ _).mp hw.symm
        omega
      refine ⟨hwe, ?_⟩
      rw [hwe]
      simp

/-- Witness for `claim_C2_save_upload_ceiling` at a concrete stream: three
1 MiB chunks are accepted in full and the file persists. -/
theorem claim_C2_save_upload_ceiling_witness :
    (save_upload_with_limit [1048576, 1048576, 1048576] MAX_UPLOAD_BYTES).onDisk =
      some 3145728 := by
  have h := (claim_C2_save_upload_ceiling [1048576, 1048576, 1048576]).2.2 3145728 (by rfl)
  exact h.2

/-! ## Duration fallback parser -/

lemma findDuration_none (l : List Char)
    (h : ∀ t, t <:+ l → matchDurationAt t = none) : findDuration l = none := by
  induction l with
  | nil => rfl
  | cons c rest ih =>
      have h0 := h (c :: rest) (List.suffix_refl _)
      simp only [findDuration, h0]
      exact ih fun t ht => h t (ht.trans (List.suffix_cons c rest))

lemma findDuration_first (l : List Char) (r : Nat × Nat × ℚ)
    (h : findDuration l = some r) :
    ∃ t, t <:+ l ∧ matchDurationAt t = some r ∧
      ∀ u, u <:+ l → t.length < u.length → matchDurationAt u = none := by
  induction l with
  | nil => simp [findDuration] at h
  | cons c rest ih =>
      cases hm : matchDurationAt (c :: rest) with
      | some r0 =>
          simp only [findDuration, hm] at h
          refine ⟨c :: rest, List.suffix_refl _, ?_, ?_⟩
          · rw [hm, h]
          · intro u hu hlen
            exact absurd (List.IsSuffix.length_le hu) (by omega)
      | none =>
          simp only [findDuration, hm] at h
          obtain ⟨t, ht, hmt, hbound⟩ := ih h
          refine ⟨t, ht.trans (List.suffix_cons c rest), hmt, ?_⟩
          intro u hu hlen
          rcases List.suffix_cons_iff.mp hu with h1 | h2
          · rw [h1]; exact hm
          · exact hbound u h2 hlen

/-- C8: `_parse_duration_from_ffmpeg_stderr` returns `None` on empty input;
on input containing `Duration: 01:02:03.45` it returns `3723.45` seconds
(`1*3600 + 2*60 + 3.45`); when two occurrences of the pattern are present it
takes the first; in general, any returned value comes from the leftmost
(longest-suffix) position where the pattern matches, converted as
`hh*3600 + mm*60 + ss`, and the result is `None` whenever no position of the
input matches the pattern. -/
theorem claim_C8_duration_fallback :
    (_parse_duration_from_ffmpeg_stderr "" = none) ∧
    (_parse_duration_from_ffmpeg_stderr
        "Input #0, mov: Duration: 01:02:03.45, start: 0.000000" = some (74469 / 20)) ∧
    ((74469 / 20 : ℚ) = 1 * 3600 + 2 * 60 + (3 + 45 / 100)) ∧
    (_parse_duration_from_ffmpeg_stderr
        "Duration: 00:00:01.5 Duration: 00:00:02.5" = some (3 / 2)) ∧
    (∀ s : String, (∀ t, t <:+ s.toList → matchDurationAt t = none) →
        _parse_duration_from_ffmpeg_stderr s = none) ∧
    (∀ (s : String) (q : ℚ), _parse_duration_from_ffmpeg_stderr s = some q →
        ∃ t hh mm ss, t <:+ s.toList ∧ matchDurationAt t = some (hh, mm, ss) ∧
          q = hh * 3600 + mm * 60 + ss ∧
          ∀ u, u <:+ s.toList → t.length < u.length → matchDurationAt u = none) := by
  refine ⟨rfl, ?_, by norm_num, ?_, ?_, ?_⟩
  · have h : _parse_duration_from_ffmpeg_stderr
        "Input #0, mov: Duration: 01:02:03.45, start: 0.000000" =
        some ((digitsToNat ['0', '1'] : ℚ) * 3600 + (digitsToNat ['0', '2'] : ℚ) * 60 +
          digitsToRat ['0', '3'] ['4', '5']) := rfl
    rw [h, digitsToRat]
    norm_num [show digitsToNat ['0', '1'] = 1 from rfl, show digitsToNat ['0', '2'] = 2 from rfl,
      show digitsToNat ['0', '3'] = 3 from rfl, show digitsToNat ['4', '5'] = 45 from rfl]
  · have h : _parse_duration_from_ffmpeg_stderr
        "Duration: 00:00:01.5 Duration: 00:00:02.5" =
        some ((digitsToNat ['0', '0'] : ℚ) * 3600 + (digitsToNat ['0', '0'] : ℚ) * 60 +
          digitsToRat ['0', '1'] ['5']) := rfl
    rw [h, digitsToRat]
    norm_num [show digitsToNat ['0', '0'] = 0 from rfl, show digitsToNat ['0', '1'] = 1 from rfl,
      show digitsToNat ['5'] = 5 from rfl]
  · intro s h
    by_cases hs : s = ""
    · rw [hs]; rfl
    · simp only [_parse_duration_from_ffmpeg_stderr, if_neg hs]
      rw [findDuration_none s.toList h]
  · intro s q h
    by_cases hs : s = ""
    · rw [hs] at h; simp [_parse_duration_from_ffmpeg_stderr] at h
    · simp only [_parse_duration_from_ffmpeg_stderr, if_neg hs] at h
      cases hm : findDuration s.toList with
      | none => rw [hm] at h; simp at h
      | some r =>
          rw [hm] at h
          obtain ⟨hh, mm, ss⟩ := r
          simp only [Option.some.injEq] at h
          obtain ⟨t, ht, hmt, hbound⟩ := findDuration_first s.toList _ hm
          exact ⟨t, hh, mm, ss, ht, hmt, h.symm, hbound⟩

/-- Witness for `claim_C8_duration_fallback`: on a diagnostic text with no
match of the duration pattern the parser returns `None`. -/
theorem claim_C8_duration_fallback_witness :
    _parse_duration_from_ffmpeg_stderr "no timing information here" = none := by
  apply claim_C8_duration_fallback.2.2.2.2.1
  intro t ht
  have hall : ∀ t ∈ ("no timing information here".toList).tails,
      matchDurationAt t = none := by decide
  exact hall t ((List.mem_tails _ _).mpr ht)

/-! ## Job store updates -/

/-- A sample row for witnesses. -/
def sampleRow : JobRow :=
  db_insert_row "j1" "u1" 0 "a.mov" ".mov" "uploads/j1_side.mov"

/-- C6: `db_mark_job_failed` turns the matching row's status to `failed`,
unconditionally overwrites `progress` to `1.0` and `stage` to `'failed'` and
records the message as `error_message`, whatever the row held before; rows
with a different `job_id` are untouched. -/
theorem claim_C6_mark_failed_unconditional (db : List JobRow) (job_id msg : String)
    (i : Nat) (r : JobRow) (hr : db[i]? = some r) :
    (r.job_id = job_id →
      (db_mark_job_failed db job_id msg)[i]? = some
        { r with status := "failed", progress := some 1, stage := some "failed",
                 error_message := some msg }) ∧
    (r.job_id ≠ job_id → (db_mark_job_failed db job_id msg)[i]? = some r) := by
  constructor
  · intro hid
    simp [db_mark_job_failed, List.getElem?_map, hr, rowMarkFailed, hid]
  · intro hid
    simp [db_mark_job_failed, List.getElem?_map, hr, hid]

/-- Witness for `claim_C6_mark_failed_unconditional` on a one-row table whose
row is freshly queued. -/
theorem claim_C6_mark_failed_unconditional_witness :
    (db_mark_job_failed [sampleRow] "j1" "boom")[0]? = some
      { sampleRow with status := "failed", progress := some 1,
                       stage := some "failed", error_message := some "boom" } :=
  (claim_C6_mark_failed_unconditional [sampleRow] "j1" "boom" 0 sampleRow rfl).1 rfl

/-- C7: `db_update_job_status` updates each of `status`, `progress`, `stage`
only when the corresponding argument is non-null (`COALESCE` semantics: a
null argument retains the prior value), leaves every other column of the row
unchanged, and does not touch rows with a different `job_id`. -/
theorem claim_C7_update_status_coalesce (db : List JobRow) (job_id : String)
    (status : Option String) (progress : Option ℚ) (stage : Option String)
    (i : Nat) (r : JobRow) (hr : db[i]? = some r) :
    (r.job_id ≠ job_id →
      (db_update_job_status db job_id status progress stage)[i]? = some r) ∧
    (r.job_id = job_id →
      ∃ u, (db_update_job_status db job_id status progress stage)[i]? = some u ∧
        (∀ s, status = some s → u.status = s) ∧
        (status = none → u.status = r.status) ∧
        (∀ p, progress = some p → u.progress = some p) ∧
        (progress = none → u.progress = r.progress) ∧
        (∀ s, stage = some s → u.stage = some s) ∧
        (stage = none → u.stage = r.stage) ∧
        u.job_id = r.job_id ∧ u.user_id = r.user_id ∧
        u.created_at_unix = r.created_at_unix ∧
        u.original_filename = r.original_filename ∧ u.upload_ext = r.upload_ext ∧
        u.upload_path = r.upload_path ∧ u.error_message = r.error_message ∧
        u.overlay_url = r.overlay_url ∧ u.analysis_url = r.analysis_url ∧
        u.practice_plan_url = r.practice_plan_url ∧
        u.practice_plan_txt_url = r.practice_plan_txt_url ∧
        u.lesson_plan_url = r.lesson_plan_url ∧
        u.throws_detected = r.throws_detected) := by
  constructor
  · intro hne
    simp [db_update_job_status, List.getElem?_map, hr, hne]
  · intro hid
    refine ⟨rowUpdateStatus r status progress stage,
      by simp [db_update_job_status, List.getElem?_map, hr, hid], ?_, ?_, ?_, ?_, ?_, ?_,
      rfl, rfl, rfl, rfl, rfl, rfl, rfl, rfl, rfl, rfl, rfl, rfl, rfl⟩
    · intro s hs; simp [rowUpdateStatus, hs]
    · intro hs; simp [rowUpdateStatus, hs]
    · intro p hp; simp [rowUpdateStatus, hp]
    · intro hp; simp [rowUpdateStatus, hp]
    · intro s hs; simp [rowUpdateStatus, hs]
    · intro hs; simp [rowUpdateStatus, hs]

/-- Witness for `claim_C7_update_status_coalesce`: updating status and
progress while passing stage as null retains the prior stage and leaves
`error_message` untouched. -/
theorem claim_C7_update_status_coalesce_witness :
    ∃ u, (db_update_job_status [sampleRow] "j1" (some "running") (some (1/100)) none)[0]? =
        some u ∧
      u.status = "running" ∧ u.progress = some (1/100) ∧
      u.stage = sampleRow.stage ∧ u.error_message = sampleRow.error_message := by
  obtain ⟨u, hu, c1, c2, c3, c4, c5, c6, f⟩ :=
    (claim_C7_update_status_coalesce [sampleRow] "j1" (some "running") (some (1/100)) none
      0 sampleRow rfl).2 rfl
  exact ⟨u, hu, c1 "running" rfl, c3 (1/100) rfl, c6 rfl, f.2.2.2.2.2.2.1⟩

/-! ## Status read path -/

/-- C10: `read_status` is a total function of the job directory state and
returns exactly one of three shapes: the parsed status document when
`status.json` exists; the synthetic queued placeholder (status `queued`,
progress `0.0`, stage `starting`, null error and result) when the result
directory exists without a status file; and the `not_found` marker echoing
the `job_id` when neither exists. -/
theorem claim_C10_read_status_shapes (job_id : String) (d : JobDirState) :
    ((∃ doc, d.statusFile = some doc ∧ read_status job_id d = doc) ∨
      (d.statusFile = none ∧ d.dirExists = true ∧
        read_status job_id d = queuedPlaceholder job_id) ∨
      (d.statusFile = none ∧ d.dirExists = false ∧
        read_status job_id d = notFoundMarker job_id)) ∧
    jsonGet (queuedPlaceholder job_id) "job_id" = some (.str job_id) ∧
    jsonGet (queuedPlaceholder job_id) "status" = some (.str "queued") ∧
    jsonGet (queuedPlaceholder job_id) "progress" = some (.num 0) ∧
    jsonGet (queuedPlaceholder job_id) "stage" = some (.str "starting") ∧
    jsonGet (queuedPlaceholder job_id) "error" = some .null ∧
    jsonGet (queuedPlaceholder job_id) "result" = some .null ∧
    jsonGet (notFoundMarker job_id) "job_id" = some (.str job_id) ∧
    jsonGet (notFoundMarker job_id) "status" = some (.str "not_found") := by
  refine ⟨?_, rfl, rfl, rfl, rfl, rfl, rfl, rfl, rfl⟩
  cases hf : d.statusFile with
  | some doc =>
      exact Or.inl ⟨doc, rfl, by simp [read_status, hf]⟩
  | none =>
      cases hd : d.dirExists with
      | true => exact Or.inr (Or.inl ⟨rfl, rfl, by simp [read_status, hf, hd]⟩)
      | false => exact Or.inr (Or.inr ⟨rfl, rfl, by simp [read_status, hf, hd]⟩)

/-! ## Orchestrator: progress discipline -/

/-- C3: over every execution path of the orchestrator (side-only, front-only,
both views, and every failure point), the sequence of progress values written
to the job store and the status document is monotonically non-decreasing,
every value lies in `[0, 1]`, and the terminal transition (done or failed)
writes exactly `1.0` (to both stores, hence also as the last write). -/
theorem claim_C3_progress_monotone (job_id : String) (hasSide hasFront : Bool)
    (env : PipelineEnv) (row0 : JobRow)
    (hview : hasSide = true ∨ hasFront = true) :
    List.Chain' (· ≤ ·)
      (start_background_job job_id hasSide hasFront env row0).progressWrites ∧
    (∀ p ∈ (start_background_job job_id hasSide hasFront env row0).progressWrites,
        0 ≤ p ∧ p ≤ 1) ∧
    (start_background_job job_id hasSide hasFront env row0).progressWrites.getLast? =
      some 1 := by
  cases hasSide <;> cases hasFront
  · simp at hview
  all_goals
    unfold start_background_job failOutcome
  all_goals
    simp only [eq_self_iff_true, Bool.false_eq_true, if_true, if_false, ite_true, ite_false,
      true_and, false_and, List.append_assoc, List.cons_append, List.nil_append]
  all_goals
    split_ifs <;> (try split) <;> (try split) <;>
      refine ⟨?_, ?_, ?_⟩ <;>
      norm_num [List.chain'_cons, List.chain'_singleton, List.chain'_nil,
        List.forall_mem_cons, List.not_mem_nil, List.getLast?]

/-- A two-view run in which both per-view stages and the combiner exit zero
but the report builder exits non-zero. -/
def envBuildFail : PipelineEnv :=
  { sideExit := 0, sideStderr := "", frontExit := 0, frontStderr := ""
  , combineExit := 0, combineStderr := "", buildExit := 1, buildStderr := "boom"
  , sideOverlayWeb := false, sideOverlayFull := false
  , frontOverlayWeb := false, frontOverlayFull := false
  , txtExists := false, practicePlanDoc := none, lessonPlanDoc := none
  , combinedDoc := none, startTime := 10, endTime := 20 }

/-- C4 counterexample: in a two-view run where only the report builder fails,
the job does end failed and the combined analysis document does survive on
disk, but the stage recorded at the end — in the job row and in the status
document — is `'failed'`, not `'building_combined_outputs'`: the terminal
transition overwrites the stage. -/
theorem claim_C4_counterexample :
    (start_background_job "j1" true true envBuildFail sampleRow).row.status = "failed" ∧
    (start_background_job "j1" true true envBuildFail sampleRow).combinedAnalysisOnDisk
      = true ∧
    (start_background_job "j1" true true envBuildFail sampleRow).row.stage ≠
      some "building_combined_outputs" ∧
    jsonGet (start_background_job "j1" true true envBuildFail sampleRow).statusDoc
      "stage" ≠ some (.str "building_combined_outputs") ∧
    (start_background_job "j1" true true envBuildFail sampleRow).row.stage =
      some "failed" ∧
    jsonGet (start_background_job "j1" true true envBuildFail sampleRow).statusDoc
      "stage" = some (.str "failed") := by
  refine ⟨rfl, rfl, ?_, ?_, rfl, rfl⟩
  · rw [show (start_background_job "j1" true true envBuildFail sampleRow).row.stage =
        some "failed" from rfl]
    simp
  · rw [show jsonGet (start_background_job "j1" true true envBuildFail sampleRow).statusDoc
        "stage" = some (.str "failed") from rfl]
    simp

/-- C4 (amended): in every two-view run where both per-view stages and the
combiner exit zero and the report builder exits non-zero, the job ends failed
with progress `1.0`; the `stage` recorded in both stores at the end is
`'failed'` (the terminal transition overwrites it), while the last stage
written to the job store before the terminal transition was
`'building_combined_outputs'` and the error message names the report
builder; the combined analysis document written by the combiner still exists
on disk even though the job is marked failed. -/
theorem claim_C4_build_fail_amended (job_id : String) (env : PipelineEnv)
    (row0 : JobRow) (hside : env.sideExit = 0) (hfront : env.frontExit = 0)
    (hcomb : env.combineExit = 0) (hbuild : env.buildExit ≠ 0) :
    (start_background_job job_id true true env row0).row.status = "failed" ∧
    (start_background_job job_id true true env row0).row.progress = some 1 ∧
    (start_background_job job_id true true env row0).row.stage = some "failed" ∧
    (start_background_job job_id true true env row0).row.error_message =
      some ("RuntimeError: build_combined_outputs failed. STDERR: " ++
        strTail 1200 env.buildStderr) ∧
    (start_background_job job_id true true env row0).stageWrites =
      ["starting_worker", "running_side", "running_front", "combining_views",
       "building_combined_outputs", "failed"] ∧
    (start_background_job job_id true true env row0).combinedAnalysisOnDisk = true ∧
    jsonGet (start_background_job job_id true true env row0).statusDoc "status" =
      some (.str "failed") ∧
    jsonGet (start_background_job job_id true true env row0).statusDoc "stage" =
      some (.str "failed") := by
  unfold start_background_job failOutcome
  simp [hside, hfront, hcomb, hbuild, rowMarkFailed, jsonGet, List.lookup]

/-- Witness for `claim_C4_build_fail_amended` at the concrete failing run. -/
theorem claim_C4_build_fail_amended_witness :
    (start_background_job "j1" true true envBuildFail sampleRow).combinedAnalysisOnDisk
      = true :=
  (claim_C4_build_fail_amended "j1" envBuildFail sampleRow rfl rfl rfl
    (by decide)).2.2.2.2.2.1

/-- Witness for `claim_C3_progress_monotone`: a concrete two-view run with
all stages succeeding. -/
theorem claim_C3_progress_monotone_witness :
    List.Chain' (· ≤ ·)
      (start_background_job "j1" true true
        { sideExit := 0, sideStderr := "", frontExit := 0, frontStderr := ""
        , combineExit := 0, combineStderr := "", buildExit := 0, buildStderr := ""
        , sideOverlayWeb := true, sideOverlayFull := true
        , frontOverlayWeb := false, frontOverlayFull := true
        , txtExists := true, practicePlanDoc := some (.num 1)
        , lessonPlanDoc := some (.num 2)
        , combinedDoc := some (.obj [("summary", .obj [("throws_detected", .num 3)])])
        , startTime := 10, endTime := 20 } sampleRow).progressWrites :=
  (claim_C3_progress_monotone "j1" true true _ sampleRow (Or.inl rfl)).1

/-! ## Orchestrator: success-path payload -/

/-- A two-view run in which every stage succeeds and both report documents
exist on disk. -/
def envAllOk : PipelineEnv :=
  { sideExit := 0, sideStderr := "", frontExit := 0, frontStderr := ""
  , combineExit := 0, combineStderr := "", buildExit := 0, buildStderr := ""
  , sideOverlayWeb := true, sideOverlayFull := false
  , frontOverlayWeb := false, frontOverlayFull := true
  , txtExists := true
  , practicePlanDoc := some (.str "pp"), lessonPlanDoc := some (.str "lp")
  , combinedDoc := some (.obj [("summary", .obj [("throws_detected", .num 3)])])
  , startTime := 10, endTime := 20 }

/-- C5: for every run that ends with status `done` and whose report documents
(practice plan JSON, lesson plan JSON) exist on disk and parse to `pp` and
`lp`, the final status payload as served by the status read path carries
exactly those parsed documents in `result.practice_plan` and
`result.lesson_plan` — the very values read from disk, with no
re-serialization in between. -/
theorem claim_C5_report_roundtrip (job_id : String) (hasSide hasFront : Bool)
    (env : PipelineEnv) (row0 : JobRow) (pp lp : JsonV)
    (hdone : (start_background_job job_id hasSide hasFront env row0).row.status = "done")
    (hpp : env.practicePlanDoc = some pp) (hlp : env.lessonPlanDoc = some lp) :
    ∃ res,
      jsonGet (read_status job_id
        { dirExists := true
        , statusFile := some (start_background_job job_id hasSide hasFront env
            row0).statusDoc }) "result" = some res ∧
      jsonGet res "practice_plan" = some pp ∧
      jsonGet res "lesson_plan" = some lp := by
  revert hdone
  cases hasSide <;> cases hasFront <;>
    simp only [start_background_job, read_status, eq_self_iff_true, Bool.false_eq_true,
      if_true, if_false, ite_true, ite_false, true_and, false_and, List.append_assoc,
      List.cons_append, List.nil_append] <;>
    split_ifs <;>
      try (intro hdone; revert hdone; simp only [failOutcome]; simp [rowMarkFailed]; done)
  all_goals
    cases hsum : pyGet (orEmptyObj (optJson env.combinedDoc)) "summary" with
    | error e =>
        try simp only [hsum]
        intro hdone; revert hdone; simp only [failOutcome]; simp [rowMarkFailed]
    | ok summaryRaw =>
        try simp only [hsum]
        cases hthr : pyGet (orEmptyObj summaryRaw) "throws_detected" with
        | error e2 =>
            try simp only [hthr]
            intro hdone; revert hdone; simp only [failOutcome]; simp [rowMarkFailed]
        | ok td =>
            try simp only [hthr]
            intro _
            simp [jsonGet, List.lookup, optJson, hpp, hlp]

/-- Witness for `claim_C5_report_roundtrip` at a concrete all-success run. -/
theorem claim_C5_report_roundtrip_witness :
    ∃ res,
      jsonGet (read_status "j1"
        { dirExists := true
        , statusFile :=
            some (start_background_job "j1" true true envAllOk sampleRow).statusDoc })
        "result" = some res ∧
      jsonGet res "practice_plan" = some (.str "pp") ∧
      jsonGet res "lesson_plan" = some (.str "lp") :=
  claim_C5_report_roundtrip "j1" true true envAllOk sampleRow (.str "pp") (.str "lp")
    rfl rfl rfl

/-- C9: `_pick_overlay_url` prefers the web overlay variant when it exists,
falls back to the full-size variant, and yields nothing when neither file
exists; in every run ending `done`, the result payload carries exactly the
picked per-view URLs (absent views yield null), and the legacy `overlay_url`
equals the side view's overlay URL whenever one exists, falling back to the
front view's only when the side has none. -/
theorem claim_C9_overlay_preference (job_id : String) (hasSide hasFront : Bool)
    (env : PipelineEnv) (row0 : JobRow)
    (hdone : (start_background_job job_id hasSide hasFront env row0).row.status = "done") :
    (∀ jid v full, _pick_overlay_url jid v true full =
        some ("/results/" ++ jid ++ "/" ++ v ++ "/overlay_release_web.mp4")) ∧
    (∀ jid v, _pick_overlay_url jid v false true =
        some ("/results/" ++ jid ++ "/" ++ v ++ "/overlay_release.mp4")) ∧
    (∀ jid v, _pick_overlay_url jid v false false = none) ∧
    ∃ res,
      jsonGet (start_background_job job_id hasSide hasFront env row0).statusDoc
        "result" = some res ∧
      jsonGet res "overlay_side_url" = some (optStr (overlaySideUrl job_id hasSide env)) ∧
      jsonGet res "overlay_front_url" =
        some (optStr (overlayFrontUrl job_id hasFront env)) ∧
      (∀ u, overlaySideUrl job_id hasSide env = some u →
          jsonGet res "overlay_url" = some (.str u)) ∧
      (overlaySideUrl job_id hasSide env = none →
          jsonGet res "overlay_url" = some (optStr (overlayFrontUrl job_id hasFront env))) := by
  refine ⟨by simp [_pick_overlay_url], by simp [_pick_overlay_url],
    by simp [_pick_overlay_url], ?_⟩
  revert hdone
  cases hasSide <;> cases hasFront <;>
    simp only [start_background_job, eq_self_iff_true, Bool.false_eq_true,
      if_true, if_false, ite_true, ite_false, true_and, false_and, List.append_assoc,
      List.cons_append, List.nil_append] <;>
    split_ifs <;>
      try (intro hdone; revert hdone; simp only [failOutcome]; simp [rowMarkFailed]; done)
  all_goals
    cases hsum : pyGet (orEmptyObj (optJson env.combinedDoc)) "summary" with
    | error e =>
        try simp only [hsum]
        intro hdone; revert hdone; simp only [failOutcome]; simp [rowMarkFailed]
    | ok summaryRaw =>
        try simp only [hsum]
        cases hthr : pyGet (orEmptyObj summaryRaw) "throws_detected" with
        | error e2 =>
            try simp only [hthr]
            intro hdone; revert hdone; simp only [failOutcome]; simp [rowMarkFailed]
        | ok td =>
            try simp only [hthr]
            intro _
            refine ⟨_, rfl, ?_, ?_, ?_, ?_⟩
            · simp [jsonGet, List.lookup]
            · simp [jsonGet, List.lookup]
            · intro u hu
              simp [jsonGet, List.lookup, hu, optStr]
            · intro hnone
              simp [jsonGet, List.lookup, hnone]

/-- Witness for `claim_C9_overlay_preference` at a concrete all-success
run. -/
theorem claim_C9_overlay_preference_witness :
    _pick_overlay_url "j1" "side" false false = none :=
  (claim_C9_overlay_preference "j1" true true envAllOk sampleRow rfl).2.2.1 "j1" "side"

/-! ## Admission phase of `POST /analyze` -/

/-- A view that passes admission: a small upload with a 5-second duration. -/
def goodView : ViewUpload := { chunks := [10, 0], suffix := ".mp4", duration := some 5 }

/-- A view that fails admission on duration: 100 seconds, over the 70-second
ceiling. -/
def longView : ViewUpload := { chunks := [10, 0], suffix := ".mp4", duration := some 100 }

lemma viewAdmission_goodView : viewAdmission goodView = .ok () := by
  have hs : (save_upload_with_limit [10, 0] MAX_UPLOAD_BYTES).result = .ok 10 := rfl
  simp only [viewAdmission, goodView, hs]
  norm_num [MAX_VIDEO_SECONDS]

lemma viewAdmission_longView : viewAdmission longView = .error 400 := by
  have hs : (save_upload_with_limit [10, 0] MAX_UPLOAD_BYTES).result = .ok 10 := rfl
  simp only [viewAdmission, longView, hs]
  norm_num [MAX_VIDEO_SECONDS]

lemma viewAdmission_error_codes (v : ViewUpload) (c : Nat)
    (h : viewAdmission v = .error c) : c = 400 ∨ c = 413 := by
  unfold viewAdmission at h
  cases hres : (save_upload_with_limit v.chunks MAX_UPLOAD_BYTES).result with
  | error e =>
      rw [hres] at h
      simp at h
      omega
  | ok w =>
      rw [hres] at h
      cases hd : v.duration with
      | none =>
          rw [hd] at h
          simp at h
          omega
      | some d =>
          rw [hd] at h
          simp only [] at h
          by_cases hlt : MAX_VIDEO_SECONDS + 1/20 < d
          · rw [if_pos hlt] at h
            simp at h
            omega
          · rw [if_neg hlt] at h
            exact Except.noConfusion h

lemma analyze_error_no_state (job_id : String) (side front : Option ViewUpload)
    (code : Nat) (h : (analyze job_id side front).response = .error code) :
    (code = 400 ∨ code = 413) ∧
    (analyze job_id side front).jobInserted = false ∧
    (analyze job_id side front).statusDocWritten = false ∧
    (analyze job_id side front).jobDirCreated = false := by
  rcases side with _ | sv <;> rcases front with _ | fv
  · simp [analyze, rejectedOutcome] at h ⊢
    omega
  · revert h
    simp only [analyze]
    cases hf : viewAdmission fv with
    | error c =>
        simp [rejectedOutcome]
        intro h
        rcases viewAdmission_error_codes fv c hf with h4 | h4 <;> omega
    | ok u => simp
  · revert h
    simp only [analyze]
    cases hs : viewAdmission sv with
    | error c =>
        simp [rejectedOutcome]
        intro h
        rcases viewAdmission_error_codes sv c hs with h4 | h4 <;> omega
    | ok u => simp
  · revert h
    simp only [analyze]
    cases hs : viewAdmission sv with
    | error c =>
        simp [rejectedOutcome]
        intro h
        rcases viewAdmission_error_codes sv c hs with h4 | h4 <;> omega
    | ok u =>
        cases hf : viewAdmission fv with
        | error c =>
            simp [rejectedOutcome]
            intro h
            rcases viewAdmission_error_codes fv c hf with h4 | h4 <;> omega
        | ok u2 => simp

lemma analyze_side_fail_no_files (job_id : String) (sv : ViewUpload)
    (front : Option ViewUpload) (code : Nat) (h : viewAdmission sv = .error code) :
    (analyze job_id (some sv) front).uploadsOnDisk = [] := by
  rcases front with _ | fv <;> simp [analyze, h, rejectedOutcome]

lemma analyze_front_fail_keeps_side_file (job_id : String) (sv fv : ViewUpload)
    (code : Nat) (hs : viewAdmission sv = .ok ()) (hf : viewAdmission fv = .error code) :
    (analyze job_id (some sv) (some fv)).uploadsOnDisk =
      [uploadName job_id "side" sv.suffix] := by
  simp [analyze, hs, hf, rejectedOutcome]

/-- C1 counterexample: a request whose side view passes admission and whose
front view fails the duration ceiling is rejected with a client error and
creates no job row, no status document and no job directory — but the side
view's already-admitted upload file remains on disk, contradicting the
claim that no uploaded file of the request remains. -/
theorem claim_C1_counterexample :
    (analyze "j1" (some goodView) (some longView)).response = .error 400 ∧
    (analyze "j1" (some goodView) (some longView)).jobInserted = false ∧
    (analyze "j1" (some goodView) (some longView)).statusDocWritten = false ∧
    (analyze "j1" (some goodView) (some longView)).jobDirCreated = false ∧
    (analyze "j1" (some goodView) (some longView)).uploadsOnDisk = ["j1_side.mp4"] ∧
    (analyze "j1" (some goodView) (some longView)).uploadsOnDisk ≠ [] := by
  have hg := viewAdmission_goodView
  have hl := viewAdmission_longView
  refine ⟨?_, ?_, ?_, ?_, ?_, ?_⟩ <;>
    simp [analyze, hg, hl, rejectedOutcome, uploadName,
      show goodView.suffix = ".mp4" from rfl]

/-- C1 (amended): whenever any admission check fails on a `POST /analyze`
request, the handler aborts with a client error (HTTP 400 or 413) before any
job is created — no job row is inserted, no status document is written, no
job directory is created — and the failing view's uploaded file does not
remain on disk; however, an uploaded file of an earlier view of the same
request that had already passed admission is not cleaned up: when the side
view fails nothing remains, but when the front view fails after the side view
was admitted, the side view's file remains on disk. -/
theorem claim_C1_admission_cleanup_amended (job_id : String)
    (side front : Option ViewUpload) :
    (∀ code, (analyze job_id side front).response = .error code →
        (code = 400 ∨ code = 413) ∧
        (analyze job_id side front).jobInserted = false ∧
        (analyze job_id side front).statusDocWritten = false ∧
        (analyze job_id side front).jobDirCreated = false) ∧
    (∀ sv code, side = some sv → viewAdmission sv = .error code →
        (analyze job_id side front).uploadsOnDisk = []) ∧
    (∀ sv fv code, side = some sv → front = some fv → viewAdmission sv = .ok () →
        viewAdmission fv = .error code →
        (analyze job_id side front).uploadsOnDisk =
          [uploadName job_id "side" sv.suffix]) := by
  refine ⟨fun code h => analyze_error_no_state job_id side front code h, ?_, ?_⟩
  · intro sv code hside h
    rw [hside]
    exact analyze_side_fail_no_files job_id sv front code h
  · intro sv fv code hside hfront hs hf
    rw [hside, hfront]
    exact analyze_front_fail_keeps_side_file job_id sv fv code hs hf

/-- Witness for `claim_C1_admission_cleanup_amended` at the concrete
counterexample request: the admitted side view's file is what remains. -/
theorem claim_C1_admission_cleanup_amended_witness :
    (analyze "j1" (some goodView) (some longView)).uploadsOnDisk =
      [uploadName "j1" "side" goodView.suffix] :=
  (claim_C1_admission_cleanup_amended "j1" (some goodView) (some longView)).2.2
    goodView longView 400 rfl rfl viewAdmission_goodView viewAdmission_longView

end DartsMVP
